import Mathlib

/-! # Watering-system controller: model and verification

A shallow embedding of `src/watering-system/javascript/index.js` (the
irrigation scheduling-and-verification controller) and proofs about its
schedule replacement, timer management, flow-verification decision rule,
moisture history buffer, and notification paths.

Conventions of the embedding:
* The JS object `SCHEDULE` (string keys, `{on, off}` values) is modelled as an
  association list `List (Nat × HourFlags)`; `Object.keys(...).map(toInt)`
  becomes taking the first components.  The JS fields `on` / `off` are called
  `isOn` / `isOff` here because `on` is reserved in Lean.
* Timer handles returned by `later.setInterval` are modelled as `Timer`
  records carrying a fresh numeric identity, the hour constraint they were
  built from, and the action they invoke; `interval.clear()` removes the
  handle from the live set.
* Side effects (console logging, pump writes, HTTP, SMS, flow-counter
  operations) are modelled as explicit event lists; delayed callbacks
  (`setTimeout`) are modelled as timestamped events.
-/

namespace WateringSystem

/-- Per-hour flags `{ on: ..., off: ... }` (index.js line 52). -/
structure HourFlags where
  isOn : Bool
  isOff : Bool
deriving DecidableEq, Repr

/-- The `SCHEDULE` object: an hour-keyed map, modelled as an association
list from numeric keys to `HourFlags`. -/
abbrev Schedule := List (Nat × HourFlags)

/-- The initial schedule set up at startup (index.js lines 51-53): every hour
0..23 mapped to `{ on: false, off: false }`. -/
def defaultSchedule : Schedule :=
  (List.range 24).map (fun i => (i, ⟨false, false⟩))

/-- `onSchedule()` (index.js lines 79-85): the hour keys of the schedule whose
`on` flag is set, in key order. -/
def onHours (s : Schedule) : List Nat :=
  (s.filter (fun p => p.2.isOn)).map (fun p => p.1)

/-- `offSchedule()` (index.js lines 88-94): the hour keys of the schedule whose
`off` flag is set, in key order. -/
def offHours (s : Schedule) : List Nat :=
  (s.filter (fun p => p.2.isOff)).map (fun p => p.1)

/-- Formalised from the spec's schedule invariant (spec §3): every hour 0..23
present exactly once and no out-of-range hour key.  The source code contains
no such check; this predicate only states the spec's validity notion. -/
def specValidSchedule (s : Schedule) : Bool :=
  ((List.range 24).all (fun h => (s.map (fun p => p.1)).count h == 1)) &&
  s.all (fun p => decide (p.1 < 24))

/-- The two actions a recurring timer can invoke. -/
inductive Action where
  | turnOn
  | turnOff
deriving DecidableEq, Repr

/-- A live `later.setInterval` handle: a fresh identity, the hour constraint
(`{ h: [...] }`) it was created with, and the callback it invokes. -/
structure Timer where
  id : Nat
  hours : List Nat
  action : Action
deriving DecidableEq, Repr

/-- The module-level mutable state of index.js relevant to scheduling:
`SCHEDULE` (line 38), the `intervals` array of live timer handles (line 40),
plus a counter supplying fresh timer identities. -/
structure Sys where
  SCHEDULE : Schedule
  intervals : List Timer
  nextId : Nat
deriving DecidableEq, Repr

/-- The state right after startup: default all-false schedule, no live
timers. -/
def initSys : Sys := ⟨defaultSchedule, [], 0⟩

/-- `updateSchedule(data)` (index.js lines 152-159): assign `SCHEDULE = data`,
call `clear()` on every handle in `intervals` (removing them from the live
set), then install two fresh recurring timers built from the new schedule:
one invoking `turnOn` on the `on` hours, one invoking `turnOff` on the `off`
hours.  There is no validation and no error path. -/
def updateSchedule (st : Sys) (data : Schedule) : Sys :=
  { SCHEDULE := data,
    intervals := [⟨st.nextId, onHours data, Action.turnOn⟩,
                  ⟨st.nextId + 1, offHours data, Action.turnOff⟩],
    nextId := st.nextId + 2 }

/-- The `GET /schedule` handler (index.js line 200): returns the current
`SCHEDULE`. -/
def getSchedule (st : Sys) : Schedule := st.SCHEDULE

/-- Modelled from the `later` library's semantics (not under src/): a
recurring interval with hour constraint `{ h: hs }` fires at wall-clock hour
`h` iff `h` is in `hs`; in particular an empty constraint never fires. -/
def timerFiresAt (t : Timer) (h : Nat) : Bool :=
  t.hours.contains h

/-- Observable side-effect events of the actuation / verification code. -/
inductive Ev where
  | logOn
  | logOff
  | pumpWrite (v : Nat)
  | armVerify (delayMs : Nat)
  | clearFlowCounter
  | startFlowCounter
  | readFlowRate
  | alertEv
deriving DecidableEq, Repr

/-- The synchronous body of `turnOn()` (index.js lines 134-140), in execution
order: `log("on")`, then `pump.write(1)`, then `setTimeout(checkFlowOn, 10000)`
arming the verification window. -/
def turnOnSync : List Ev :=
  [Ev.logOn, Ev.pumpWrite 1, Ev.armVerify 10000]

/-- The synchronous body of `turnOff()` (index.js lines 143-149), in execution
order: `log("off")`, then `pump.write(0)`, then `setTimeout(checkFlowOff, 10000)`. -/
def turnOffSync : List Ev :=
  [Ev.logOff, Ev.pumpWrite 0, Ev.armVerify 10000]

/-- An event stamped with the (millisecond) instant at which it occurs. -/
structure TimedEv where
  time : Nat
  ev : Ev
deriving DecidableEq, Repr

/-- `checkFlowOn()` (index.js lines 114-121), run at instant `t` with the flow
sensor reporting `rate` at the end of the 2000 ms window: clear and start the
flow counter at `t`, read the rate at `t + 2000`, and alert iff `rate < 1`. -/
def checkFlowOnTrace (t : Nat) (rate : ℚ) : List TimedEv :=
  [⟨t, Ev.clearFlowCounter⟩, ⟨t, Ev.startFlowCounter⟩, ⟨t + 2000, Ev.readFlowRate⟩] ++
  (if rate < 1 then [⟨t + 2000, Ev.alertEv⟩] else [])

/-- `checkFlowOff()` (index.js lines 124-131): same two-stage shape, alerting
iff `rate >= 0.5`. -/
def checkFlowOffTrace (t : Nat) (rate : ℚ) : List TimedEv :=
  [⟨t, Ev.clearFlowCounter⟩, ⟨t, Ev.startFlowCounter⟩, ⟨t + 2000, Ev.readFlowRate⟩] ++
  (if (0.5 : ℚ) ≤ rate then [⟨t + 2000, Ev.alertEv⟩] else [])

/-- Full timed trace of `turnOn()` called at instant `t0`: the synchronous
events at `t0`, then `checkFlowOn` fires 10000 ms later. -/
def turnOnTrace (t0 : Nat) (rate : ℚ) : List TimedEv :=
  [⟨t0, Ev.logOn⟩, ⟨t0, Ev.pumpWrite 1⟩] ++ checkFlowOnTrace (t0 + 10000) rate

/-- Full timed trace of `turnOff()` called at instant `t0`. -/
def turnOffTrace (t0 : Nat) (rate : ℚ) : List TimedEv :=
  [⟨t0, Ev.logOff⟩, ⟨t0, Ev.pumpWrite 0⟩] ++ checkFlowOffTrace (t0 + 10000) rate

/-- Recogniser for alert events. -/
def isAlert : Ev → Bool
  | Ev.alertEv => true
  | _ => false

/-- Recogniser for flow-counter-clear events. -/
def isClear : Ev → Bool
  | Ev.clearFlowCounter => true
  | _ => false

/-- Recogniser for flow-counter-start events. -/
def isStart : Ev → Bool
  | Ev.startFlowCounter => true
  | _ => false

/-- Recogniser for rate-read/decision events. -/
def isRead : Ev → Bool
  | Ev.readFlowRate => true
  | _ => false

/-- Number of alert events in a timed trace. -/
def alertCount (tr : List TimedEv) : Nat :=
  (tr.filter (fun e => isAlert e.ev)).length

/-- The instants at which events matched by `p` occur in a trace. -/
def timesOf (p : Ev → Bool) (tr : List TimedEv) : List Nat :=
  (tr.filter (fun e => p e.ev)).map TimedEv.time

/-- A moisture reading paired with its timestamp (index.js line 213). -/
structure MoistureSample where
  value : ℚ
  time : Nat
deriving DecidableEq, Repr

/-- One tick of the `monitor()` loop acting on the `MOISTURE` buffer
(index.js lines 209-218): `MOISTURE.push(sample)`, then
`if (MOISTURE.length > 20) MOISTURE.shift()`. -/
def monitorAppend (buf : List MoistureSample) (s : MoistureSample) : List MoistureSample :=
  if 20 < (buf ++ [s]).length then (buf ++ [s]).tail else buf ++ [s]

/-- The configuration fields of config.json consulted by `log` and `alert`;
`none` models an absent key and `some ""` an empty string, both falsy in JS. -/
structure Config where
  SERVER : Option String
  AUTH_TOKEN : Option String
  TWILIO_ACCT_SID : Option String
  TWILIO_AUTH_TOKEN : Option String
  NUMBER_TO_SEND_TO : Option String
  TWILIO_OUTGOING_NUMBER : Option String
deriving DecidableEq, Repr

/-- JS falsiness of an optional string config value: absent, or empty. -/
def falsy (o : Option String) : Bool :=
  match o with
  | none => true
  | some s => s == ""

/-- An optional string read as a string, defaulting to empty. -/
def optStr (o : Option String) : String := o.getD ""

/-- Remote/console side effects of the notification functions. -/
inductive NetEff where
  | consoleLog (msg : String)
  | httpPut (server token body : String)
  | smsSend (toNum fromNum body : String)
deriving DecidableEq, Repr

/-- `log(event)` (index.js lines 60-76): always `console.log(event)`; if
`config.SERVER` or `config.AUTH_TOKEN` is falsy, return with no remote call;
otherwise PUT the event (with a timestamp `now`) to the server.  The function
never throws. -/
def log (cfg : Config) (event now : String) : List NetEff :=
  if falsy cfg.SERVER || falsy cfg.AUTH_TOKEN then
    [NetEff.consoleLog event]
  else
    [NetEff.consoleLog event,
     NetEff.httpPut (optStr cfg.SERVER) (optStr cfg.AUTH_TOKEN) (event ++ " " ++ now)]

/-- `alert()` (index.js lines 97-111): always log to the console; if
`config.TWILIO_ACCT_SID` or `config.TWILIO_AUTH_TOKEN` is falsy, return with
no SMS; otherwise send the SMS.  The function never throws. -/
def alert (cfg : Config) : List NetEff :=
  if falsy cfg.TWILIO_ACCT_SID || falsy cfg.TWILIO_AUTH_TOKEN then
    [NetEff.consoleLog "Watering system alert"]
  else
    [NetEff.consoleLog "Watering system alert",
     NetEff.smsSend (optStr cfg.NUMBER_TO_SEND_TO) (optStr cfg.TWILIO_OUTGOING_NUMBER)
       "watering system alarm"]

/-- A config with every field absent. -/
def emptyConfig : Config := ⟨none, none, none, none, none, none⟩

/-! ## Helper lemmas -/

/-- The intervals installed by `updateSchedule` are exactly the two fresh
timers built from the new data. -/
theorem updateSchedule_intervals (st : Sys) (d : Schedule) :
    (updateSchedule st d).intervals =
      [⟨st.nextId, onHours d, Action.turnOn⟩,
       ⟨st.nextId + 1, offHours d, Action.turnOff⟩] := rfl

/-- Every timer live before a call to `updateSchedule` is absent from the
live set afterwards, assuming all live identities are below the fresh-id
counter (an invariant of the model). -/
theorem updateSchedule_fresh (st : Sys) (d : Schedule)
    (hinv : ∀ t ∈ st.intervals, t.id < st.nextId) :
    ∀ t ∈ st.intervals, t ∉ (updateSchedule st d).intervals := by
  intro t ht hmem
  have hid := hinv t ht
  rw [updateSchedule_intervals] at hmem
  simp only [List.mem_cons, List.not_mem_nil, or_false] at hmem
  rcases hmem with h | h <;> rw [h] at hid <;> simp at hid

/-- One step of the FIFO buffer preserves the "last 20 elements" shape. -/
theorem monitorAppend_drop (xs : List MoistureSample) (x : MoistureSample) :
    monitorAppend (xs.drop (xs.length - 20)) x
      = (xs ++ [x]).drop ((xs ++ [x]).length - 20) := by
  have hx1 : (xs ++ [x]).length = xs.length + 1 := by simp
  have hd : (xs.drop (xs.length - 20)).length = xs.length - (xs.length - 20) :=
    List.length_drop _ _
  unfold monitorAppend
  by_cases h : xs.length < 20
  · have hlen : ¬ 20 < (xs.drop (xs.length - 20) ++ [x]).length := by
      rw [List.length_append, hd]
      simp
      omega
    have h0 : xs.length - 20 = 0 := by omega
    rw [if_neg hlen, h0, hx1]
    have h1 : xs.length + 1 - 20 = 0 := by omega
    rw [h1, List.drop_zero, List.drop_zero]
  · have h20 : 20 ≤ xs.length := by omega
    have hlen : 20 < (xs.drop (xs.length - 20) ++ [x]).length := by
      rw [List.length_append, hd]
      simp
      omega
    have hne : xs.drop (xs.length - 20) ≠ [] := by
      intro hnil
      rw [hnil] at hd
      simp at hd
      omega
    rw [if_pos hlen, List.tail_append_of_ne_nil hne, List.tail_drop, hx1,
      List.drop_append_of_le_length (by omega)]
    have heq : xs.length + 1 - 20 = xs.length - 20 + 1 := by omega
    rw [heq]

/-- The buffer after any sequence of appends is the suffix of the last 20
samples. -/
theorem foldl_monitorAppend (xs : List MoistureSample) :
    xs.foldl monitorAppend [] = xs.drop (xs.length - 20) := by
  induction xs using List.reverseRecOn with
  | nil => simp
  | append_singleton ys y ih =>
    rw [List.foldl_append, List.foldl_cons, List.foldl_nil, ih]
    exact monitorAppend_drop ys y

/-! ## Claims -/

/-- C1 (counterexample): the claim says an invalid schedule input is rejected
synchronously and causes no state change; in fact `updateSchedule` does no
validation at all: the concrete invalid input `[]` (missing every hour key)
is installed as the new schedule, changing the observable schedule, and the
live timer set is replaced. -/
theorem updateSchedule_invalid_changes_state :
    specValidSchedule [] = false ∧
    getSchedule (updateSchedule initSys []) ≠ getSchedule initSys ∧
    (updateSchedule (updateSchedule initSys defaultSchedule) []).intervals
      ≠ (updateSchedule initSys defaultSchedule).intervals := by
  refine ⟨by decide, by decide, by decide⟩

/-- C1 (amended): `updateSchedule` performs no validation: for every input,
including every invalid one, it installs the input as the current schedule,
unconditionally clears all previously live timers and installs two fresh
timers built from the input; no error is raised (the operation is total). -/
theorem updateSchedule_no_validation (st : Sys) (d : Schedule)
    (_hinvalid : specValidSchedule d = false) :
    getSchedule (updateSchedule st d) = d ∧
    (updateSchedule st d).intervals =
      [⟨st.nextId, onHours d, Action.turnOn⟩,
       ⟨st.nextId + 1, offHours d, Action.turnOff⟩] :=
  ⟨rfl, rfl⟩

/-- C1 (witness): the amended theorem applied at the concrete invalid input
`[]`. -/
theorem updateSchedule_no_validation_witness :
    specValidSchedule ([] : Schedule) = false ∧
    getSchedule (updateSchedule initSys []) = [] :=
  ⟨by decide, (updateSchedule_no_validation initSys [] (by decide)).1⟩

/-- C2 (counterexample): the claim orders the actuator command before the
notification emission; in `turnOn()` the `log("on")` call occurs at position
0 and `pump.write(1)` at position 1, so the pump write does not happen before
the log. -/
theorem turnOn_pump_not_before_log :
    turnOnSync.indexOf (Ev.pumpWrite 1) = 1 ∧
    turnOnSync.indexOf Ev.logOn = 0 ∧
    ¬ turnOnSync.indexOf (Ev.pumpWrite 1) < turnOnSync.indexOf Ev.logOn := by
  decide

/-- C2 (amended): within a single actuation call the notification emission
(`log`) happens before the actuator command (`pump.write`), which happens
before the verification window is armed (`setTimeout`), for both `turnOn`
and `turnOff`. -/
theorem actuation_order_log_pump_arm :
    (turnOnSync.indexOf Ev.logOn < turnOnSync.indexOf (Ev.pumpWrite 1) ∧
     turnOnSync.indexOf (Ev.pumpWrite 1) < turnOnSync.indexOf (Ev.armVerify 10000)) ∧
    (turnOffSync.indexOf Ev.logOff < turnOffSync.indexOf (Ev.pumpWrite 0) ∧
     turnOffSync.indexOf (Ev.pumpWrite 0) < turnOffSync.indexOf (Ev.armVerify 10000)) := by
  decide

/-- C3: the flow-verification decision rule is asymmetric: with expected
state ON exactly one alert is raised iff the observed rate is strictly below
1, and none otherwise; with expected state OFF exactly one alert is raised
iff the rate is at least 0.5, and none otherwise. -/
theorem flow_decision_rule (t : Nat) (rate : ℚ) :
    (alertCount (checkFlowOnTrace t rate) = 1 ↔ rate < 1) ∧
    (alertCount (checkFlowOnTrace t rate) = 0 ↔ ¬ rate < 1) ∧
    (alertCount (checkFlowOffTrace t rate) = 1 ↔ (0.5 : ℚ) ≤ rate) ∧
    (alertCount (checkFlowOffTrace t rate) = 0 ↔ ¬ (0.5 : ℚ) ≤ rate) := by
  unfold alertCount checkFlowOnTrace checkFlowOffTrace
  refine ⟨?_, ?_, ?_, ?_⟩ <;> split <;> rename_i hc <;> simp [isAlert, hc]

/-- C4: after any sequence of `n` appends the moisture buffer holds exactly
`min n 20` samples, namely the most recent `min n 20` appended samples in
insertion order (pure FIFO eviction). -/
theorem moisture_history_bounded_fifo (xs : List MoistureSample) :
    (xs.foldl monitorAppend []).length = min xs.length 20 ∧
    xs.foldl monitorAppend [] = xs.drop (xs.length - 20) := by
  refine ⟨?_, foldl_monitorAppend xs⟩
  rw [foldl_monitorAppend xs, List.length_drop]
  omega

/-- C5: every call to `updateSchedule` unconditionally clears all previously
live recurring timers — including when the new schedule equals the old one —
and every timer live afterwards carries hour constraints computed from the
new schedule only. -/
theorem updateSchedule_clears_old_timers (st : Sys) (d : Schedule)
    (hinv : ∀ t ∈ st.intervals, t.id < st.nextId) :
    (∀ t ∈ st.intervals, t ∉ (updateSchedule st d).intervals) ∧
    (∀ t ∈ (updateSchedule st d).intervals,
        t.hours = onHours d ∨ t.hours = offHours d) := by
  refine ⟨updateSchedule_fresh st d hinv, ?_⟩
  intro t ht
  rw [updateSchedule_intervals] at ht
  simp only [List.mem_cons, List.not_mem_nil, or_false] at ht
  rcases ht with h | h
  · rw [h]
    exact Or.inl rfl
  · rw [h]
    exact Or.inr rfl

/-- C5 (witness): replacing the schedule by the identical schedule still
removes the previously live on-timer from the live set. -/
theorem updateSchedule_clears_old_timers_witness :
    (⟨0, ([] : List Nat), Action.turnOn⟩ : Timer) ∉
      (updateSchedule (updateSchedule initSys defaultSchedule) defaultSchedule).intervals :=
  (updateSchedule_clears_old_timers (updateSchedule initSys defaultSchedule)
      defaultSchedule (by decide)).1 ⟨0, [], Action.turnOn⟩ (by decide)

/-- C6: for every valid schedule covering hours 0..23, replacing the schedule
and reading it back returns the same schedule. -/
theorem schedule_roundtrip (st : Sys) (d : Schedule)
    (_hvalid : specValidSchedule d = true) :
    getSchedule (updateSchedule st d) = d := rfl

/-- C6 (witness): the round-trip at the concrete valid all-false schedule. -/
theorem schedule_roundtrip_witness :
    specValidSchedule defaultSchedule = true ∧
    getSchedule (updateSchedule initSys defaultSchedule) = defaultSchedule :=
  ⟨by decide, schedule_roundtrip initSys defaultSchedule (by decide)⟩

/-- C7 (counterexample): the claim says no on-timer is installed when the
schedule has no `on` hours; in fact `updateSchedule` always calls
`later.setInterval` for the on direction and stores the handle: with the
all-false default schedule (whose on-hour set is empty) the live set still
contains exactly one on-direction timer. -/
theorem empty_on_hours_timer_still_installed :
    onHours defaultSchedule = [] ∧
    ((updateSchedule initSys defaultSchedule).intervals.filter
        (fun t => decide (t.action = Action.turnOn))).length = 1 := by
  decide

/-- C7 (amended): when the on-hour set is empty an on-direction timer handle
is still installed, but it never fires at any hour (and symmetrically for the
off direction); the manual `turnOn` override still commands the actuator and
still arms a verification window. -/
theorem empty_direction_never_fires (st : Sys) (d : Schedule)
    (hon : onHours d = []) :
    (∀ t ∈ (updateSchedule st d).intervals, t.action = Action.turnOn →
        ∀ h, timerFiresAt t h = false) ∧
    (offHours d = [] → ∀ t ∈ (updateSchedule st d).intervals,
        t.action = Action.turnOff → ∀ h, timerFiresAt t h = false) ∧
    Ev.pumpWrite 1 ∈ turnOnSync ∧ Ev.armVerify 10000 ∈ turnOnSync := by
  refine ⟨?_, ?_, by decide, by decide⟩
  · intro t ht hact h
    rw [updateSchedule_intervals] at ht
    simp only [List.mem_cons, List.not_mem_nil, or_false] at ht
    rcases ht with he | he
    · rw [he]
      simp [timerFiresAt, hon]
    · rw [he] at hact
      simp at hact
  · intro hoff t ht hact h
    rw [updateSchedule_intervals] at ht
    simp only [List.mem_cons, List.not_mem_nil, or_false] at ht
    rcases ht with he | he
    · rw [he] at hact
      simp at hact
    · rw [he]
      simp [timerFiresAt, hoff]

/-- C7 (witness): the amended theorem applied at the default (all-false)
schedule: the installed on-timer does not fire at hour 5. -/
theorem empty_direction_never_fires_witness :
    onHours defaultSchedule = [] ∧
    timerFiresAt ⟨0, [], Action.turnOn⟩ 5 = false :=
  ⟨by decide,
   (empty_direction_never_fires initSys defaultSchedule (by decide)).1
      ⟨0, [], Action.turnOn⟩ (by decide) rfl 5⟩

/-- C8: every verification window is two-staged with a 10000 ms settle delay
and a 2000 ms sample window: the flow counter is cleared and restarted exactly
once, 10000 ms after the actuation instant, and the rate is read and the alert
decision made exactly once, 2000 ms after that — for both directions and every
observed rate. -/
theorem verification_two_stage_timing (t0 : Nat) (rate : ℚ) :
    timesOf isClear (turnOnTrace t0 rate) = [t0 + 10000] ∧
    timesOf isStart (turnOnTrace t0 rate) = [t0 + 10000] ∧
    timesOf isRead (turnOnTrace t0 rate) = [t0 + 10000 + 2000] ∧
    timesOf isClear (turnOffTrace t0 rate) = [t0 + 10000] ∧
    timesOf isStart (turnOffTrace t0 rate) = [t0 + 10000] ∧
    timesOf isRead (turnOffTrace t0 rate) = [t0 + 10000 + 2000] := by
  unfold timesOf turnOnTrace turnOffTrace checkFlowOnTrace checkFlowOffTrace
  refine ⟨?_, ?_, ?_, ?_, ?_, ?_⟩ <;> split <;>
    simp [isClear, isStart, isRead]

/-- C9: after every call to `updateSchedule`, whatever the input, the live
timer set consists of exactly two timers — first one invoking `turnOn`, then
one invoking `turnOff` — and every previously live timer has been cleared. -/
theorem updateSchedule_exactly_two_timers (st : Sys) (d : Schedule)
    (hinv : ∀ t ∈ st.intervals, t.id < st.nextId) :
    (updateSchedule st d).intervals.map Timer.action = [Action.turnOn, Action.turnOff] ∧
    (∀ t ∈ st.intervals, t ∉ (updateSchedule st d).intervals) :=
  ⟨rfl, updateSchedule_fresh st d hinv⟩

/-- C9 (witness): applied after one prior replacement, so the previous two
timers are live and then cleared. -/
theorem updateSchedule_exactly_two_timers_witness :
    (updateSchedule (updateSchedule initSys defaultSchedule) defaultSchedule).intervals.map
        Timer.action = [Action.turnOn, Action.turnOff] :=
  (updateSchedule_exactly_two_timers (updateSchedule initSys defaultSchedule)
      defaultSchedule (by decide)).1

/-- C10: when credentials are absent notification delivery degrades silently:
a falsy `SERVER` or `AUTH_TOKEN` makes `log` write only to the console with no
remote request, and a falsy `TWILIO_ACCT_SID` or `TWILIO_AUTH_TOKEN` makes
`alert` write only to the console with no SMS; both functions are total, so
no error reaches the caller. -/
theorem notifications_degrade_silently (cfg : Config) (event now : String) :
    ((falsy cfg.SERVER || falsy cfg.AUTH_TOKEN) = true →
        log cfg event now = [NetEff.consoleLog event]) ∧
    ((falsy cfg.TWILIO_ACCT_SID || falsy cfg.TWILIO_AUTH_TOKEN) = true →
        alert cfg = [NetEff.consoleLog "Watering system alert"]) := by
  constructor <;> intro h <;> simp [log, alert, h]

/-- C10 (witness): with an entirely absent config, `log` and `alert` emit only
their console line. -/
theorem notifications_degrade_silently_witness :
    log emptyConfig "on" "t" = [NetEff.consoleLog "on"] ∧
    alert emptyConfig = [NetEff.consoleLog "Watering system alert"] :=
  ⟨(notifications_degrade_silently emptyConfig "on" "t").1 (by decide),
   (notifications_degrade_silently emptyConfig "on" "t").2 (by decide)⟩

end WateringSystem
